import Mathlib

/-!
Shallow embedding of the edgesearch worker (src/script/src/main.ts) and
theorems settling the specification claims.  The host-side code is embedded
as executable Lean definitions: the MemoryWalker wire codec over a byte
buffer, the printf-style format interpreter, query parsing, and the
orchestration of handleSearch.  The WebAssembly computation module (chunk
locate/search and the query evaluator) and the KV blob store are external to
the repository and are embedded as oracle parameters of an environment
record, quantified over in the theorems.
-/

set_option maxRecDepth 4000

deriving instance DecidableEq for Except

/-- Bytes of an ArrayBuffer / Uint8Array: a list of naturals (each 0..255). -/
abbrev Bytes := List Nat

/-- Embedding of class MemoryWalker (main.ts lines 21-126): a byte buffer plus
the sequential read/write position `next`. -/
structure MemoryWalker where
  buffer : Bytes
  next : Nat
deriving DecidableEq

namespace MemoryWalker

/-- Byte of the backing buffer at absolute index i (0 when out of range, as a
total-function stand-in; bounds-checked operations never read out of range). -/
def byteAt (w : MemoryWalker) (i : Nat) : Nat := w.buffer.getD i 0

/-- Little-endian value of the n bytes starting at the current position. -/
def leBytesVal (w : MemoryWalker) (n : Nat) : Nat :=
  (List.range n).foldr (fun i acc => acc * 256 + w.byteAt (w.next + i)) 0

/-- Big-endian value of the n bytes starting at the current position. -/
def beBytesVal (w : MemoryWalker) (n : Nat) : Nat :=
  (List.range n).foldl (fun acc i => acc * 256 + w.byteAt (w.next + i)) 0

/-- Reinterpret an unsigned value of the given bit width as two's-complement. -/
def toSigned (bits : Nat) (v : Nat) : Int :=
  if v < 2 ^ (bits - 1) then (v : Int) else (v : Int) - 2 ^ bits

/-- jumpTo (line 33). -/
def jumpTo (w : MemoryWalker) (ptr : Nat) : MemoryWalker := ⟨w.buffer, ptr⟩

/-- forkAndJump (line 38): a new walker over the same buffer. -/
def forkAndJump (w : MemoryWalker) (ptr : Nat) : MemoryWalker := ⟨w.buffer, ptr⟩

/-- skip (line 42). -/
def skip (w : MemoryWalker) (bytes : Nat) : MemoryWalker := ⟨w.buffer, w.next + bytes⟩

/-- readUInt8 (line 59): DataView.getUint8 raises RangeError when the access
would pass the end of the buffer. -/
def readUInt8 (w : MemoryWalker) : Except String (Nat × MemoryWalker) :=
  if w.next + 1 ≤ w.buffer.length then
    .ok (w.byteAt w.next, ⟨w.buffer, w.next + 1⟩)
  else .error "RangeError"

/-- readBoolean (line 55): getUint8 then JS double negation. -/
def readBoolean (w : MemoryWalker) : Except String (Bool × MemoryWalker) :=
  if w.next + 1 ≤ w.buffer.length then
    .ok (decide (w.byteAt w.next ≠ 0), ⟨w.buffer, w.next + 1⟩)
  else .error "RangeError"

/-- readInt32LE (line 63): DataView.getInt32 little-endian, bounds-checked. -/
def readInt32LE (w : MemoryWalker) : Except String (Int × MemoryWalker) :=
  if w.next + 4 ≤ w.buffer.length then
    .ok (toSigned 32 (w.leBytesVal 4), ⟨w.buffer, w.next + 4⟩)
  else .error "RangeError"

/-- readInt32BE (line 69). -/
def readInt32BE (w : MemoryWalker) : Except String (Int × MemoryWalker) :=
  if w.next + 4 ≤ w.buffer.length then
    .ok (toSigned 32 (w.beBytesVal 4), ⟨w.buffer, w.next + 4⟩)
  else .error "RangeError"

/-- readUInt32LE (line 75). -/
def readUInt32LE (w : MemoryWalker) : Except String (Nat × MemoryWalker) :=
  if w.next + 4 ≤ w.buffer.length then
    .ok (w.leBytesVal 4, ⟨w.buffer, w.next + 4⟩)
  else .error "RangeError"

/-- readUInt32BE (line 81). -/
def readUInt32BE (w : MemoryWalker) : Except String (Nat × MemoryWalker) :=
  if w.next + 4 ≤ w.buffer.length then
    .ok (w.beBytesVal 4, ⟨w.buffer, w.next + 4⟩)
  else .error "RangeError"

/-- readInt64LE (line 87): DataView.getBigInt64, bounds-checked. -/
def readInt64LE (w : MemoryWalker) : Except String (Int × MemoryWalker) :=
  if w.next + 8 ≤ w.buffer.length then
    .ok (toSigned 64 (w.leBytesVal 8), ⟨w.buffer, w.next + 8⟩)
  else .error "RangeError"

/-- readUInt64LE (line 93). -/
def readUInt64LE (w : MemoryWalker) : Except String (Nat × MemoryWalker) :=
  if w.next + 8 ≤ w.buffer.length then
    .ok (w.leBytesVal 8, ⟨w.buffer, w.next + 8⟩)
  else .error "RangeError"

/-- readDoubleLE (line 99): DataView.getFloat64, bounds-checked.  The eight
little-endian bytes are returned raw: their IEEE-754 interpretation is outside
the scope of this development and no claim depends on the numeric value, only
on the position/bounds contract. -/
def readDoubleLE (w : MemoryWalker) : Except String (Bytes × MemoryWalker) :=
  if w.next + 8 ≤ w.buffer.length then
    .ok ((List.range 8).map (fun i => w.byteAt (w.next + i)), ⟨w.buffer, w.next + 8⟩)
  else .error "RangeError"

/-- readSlice (line 51): `this.buffer.slice(this.next, this.next += len)`.
ArrayBuffer.slice clamps both endpoints to the buffer, so the operation never
fails: it silently returns fewer than len bytes when the range passes the end,
while still advancing the position by the full len. -/
def readSlice (w : MemoryWalker) (len : Nat) : Except String (Bytes × MemoryWalker) :=
  .ok ((w.buffer.drop w.next).take len, ⟨w.buffer, w.next + len⟩)

/-- readNullTerminatedString (line 105): scans `while (this.uint8Array[end])`.
Indexing a Uint8Array past its end yields undefined, which is falsy, so the
scan silently treats the end of the buffer as a terminator and never fails;
the position is left one past the scan end (possibly beyond the buffer).  The
raw bytes before UTF-8 text decoding are returned. -/
def readNullTerminatedString (w : MemoryWalker) : Except String (Bytes × MemoryWalker) :=
  let strBytes := (w.buffer.drop w.next).takeWhile (fun b => b ≠ 0)
  .ok (strBytes, ⟨w.buffer, w.next + strBytes.length + 1⟩)

/-- writeAll (line 121): Uint8Array.set raises RangeError when the source does
not fit at the target offset. -/
def writeAll (w : MemoryWalker) (src : Bytes) : Except String MemoryWalker :=
  if w.next + src.length ≤ w.buffer.length then
    .ok ⟨w.buffer.take w.next ++ src ++ w.buffer.drop (w.next + src.length), w.next + src.length⟩
  else .error "RangeError"

/-- writeUInt32LE (line 115): DataView.setUint32 little-endian, bounds-checked
exactly like a four-byte write. -/
def writeUInt32LE (w : MemoryWalker) (val : Nat) : Except String MemoryWalker :=
  if w.next + 4 ≤ w.buffer.length then
    .ok ⟨w.buffer.take w.next ++ (List.range 4).map (fun i => val / 256 ^ i % 256) ++
          w.buffer.drop (w.next + 4), w.next + 4⟩
  else .error "RangeError"

/-- readAndDereferencePointer (line 47): read a u32 offset and continue from it. -/
def readAndDereferencePointer (w : MemoryWalker) : Except String MemoryWalker :=
  match w.readUInt32LE with
  | .ok (ptr, _) => .ok ⟨w.buffer, ptr⟩
  | .error e => .error e

end MemoryWalker

/-! ## Format interpreter (main.ts lines 128-175)

formatFromVarargs scans a format string with the global regex

  %([-+ 0'#]*)((?:[0-9]+|\*)?)((?:\.(?:[0-9]+|\*))?)((?:hh|h|l|ll|L|z|j|t|I|I32|I64|q)?)([%diufFeEgGxXoscpaA])

and, for each match, throws when flags/width/precision are non-empty, looks
up a parser entry by (length, type), throws SyntaxError when none is found,
and otherwise parses one argument and formats it.  The scanner below is a
faithful rendering of that regex for this fixed pattern: the flag characters,
width digits and precision characters are disjoint from the length-form and
type characters, so regex backtracking across group boundaries can never turn
a failed match into a successful one; inside the length group the
alternatives are tried in the regex's left-to-right order and an alternative
is kept exactly when a type-class character follows it (that is the only
backtracking that can succeed).  When no specifier matches at a '%', the
character is left in place and scanning resumes after it, as String.replace
does.  Argument decoding (the parse functions of the table, which read from
the MemoryWalker) is represented by the ParseKind tag of the produced token;
the per-specifier validation happens before any argument is read.
-/

/-- Which read the matched parser entry performs on the argument walker. -/
inductive ParseKind where
  | int32 | uint32 | int64 | uint64 | double | strByRef | percentLit
deriving DecidableEq

/-- One entry of SPECIFIER_PARSERS (lines 128-136): the Set of accepted length
prefixes, the Set of accepted type characters, and the parse action. -/
structure SpecifierEntry where
  lengths : List (List Char)
  types : List Char
  kind : ParseKind
deriving DecidableEq

/-- SPECIFIER_PARSERS (lines 128-136).  Note the sixth and seventh entries:
the source has `length: new Set()` there, the empty set, which in particular
does not contain the empty string. -/
def SPECIFIER_TABLE : List SpecifierEntry := [
  ⟨[['h','h'], ['h'], ['l'], ['z'], ['t'], []], "dic".data, .int32⟩,
  ⟨[['h','h'], ['h'], ['l'], ['z'], ['t'], []], "uxXop".data, .uint32⟩,
  ⟨[['l','l'], ['j']], "di".data, .int64⟩,
  ⟨[['l','l'], ['j']], "uxXop".data, .uint64⟩,
  ⟨[['L'], []], "fFeEgGaA".data, .double⟩,
  ⟨[], "s".data, .strByRef⟩,
  ⟨[], "%".data, .percentLit⟩]

/-- `SPECIFIER_PARSERS.find(p => p.length.has(length) && p.type.has(type))`
(line 168). -/
def findSpecifier (lengthForm : List Char) (typeChar : Char) : Option SpecifierEntry :=
  SPECIFIER_TABLE.find? (fun p => lengthForm ∈ p.lengths ∧ typeChar ∈ p.types)

/-- The flag character class `[-+ 0'#]` (apostrophe written via its code). -/
def isFlagChar (c : Char) : Bool :=
  c = '-' ∨ c = '+' ∨ c = ' ' ∨ c = '0' ∨ c = Char.ofNat 39 ∨ c = '#'

/-- Decimal digit class `[0-9]`. -/
def isDigitChar (c : Char) : Bool := '0' ≤ c ∧ c ≤ '9'

/-- The conversion type character class `[%diufFeEgGxXoscpaA]`. -/
def typeChars : List Char := "%diufFeEgGxXoscpaA".data

/-- The length-form alternatives `hh|h|l|ll|L|z|j|t|I|I32|I64|q`, in the
regex's order. -/
def lengthForms : List (List Char) :=
  [['h','h'], ['h'], ['l'], ['l','l'], ['L'], ['z'], ['j'], ['t'], ['I'],
   ['I','3','2'], ['I','6','4'], ['q']]

/-- Match the width group `(?:[0-9]+|\*)?`: the matched text and the rest. -/
def matchWidth (cs : List Char) : List Char × List Char :=
  match cs with
  | c :: rest =>
    if c = '*' then ([c], rest)
    else
      let digits := (c :: rest).takeWhile isDigitChar
      (digits, (c :: rest).drop digits.length)
  | [] => ([], [])

/-- Match the precision group `((?:\.(?:[0-9]+|\*))?)`: a dot followed by
digits or a star; a bare dot makes the optional group match empty. -/
def matchPrecision (cs : List Char) : List Char × List Char :=
  match cs with
  | '.' :: c :: rest =>
    if c = '*' then (['.', c], rest)
    else
      let digits := (c :: rest).takeWhile isDigitChar
      if digits.isEmpty then ([], '.' :: c :: rest)
      else ('.' :: digits, (c :: rest).drop digits.length)
  | cs => ([], cs)

/-- Match the length group followed by a type character: the regex keeps the
first length alternative (in order, the empty alternative last) after which a
type-class character stands. -/
def matchLengthAndType (cs : List Char) : Option (List Char × Char × List Char) :=
  match lengthForms.find? (fun lf =>
      lf.isPrefixOf cs &&
        match cs.drop lf.length with
        | t :: _ => decide (t ∈ typeChars)
        | [] => false) with
  | some lf =>
    match cs.drop lf.length with
    | t :: rest => some (lf, t, rest)
    | [] => none
  | none =>
    match cs with
    | t :: rest => if t ∈ typeChars then some ([], t, rest) else none
    | [] => none

/-- A fully matched conversion specifier: the captured groups and the rest of
the input. -/
structure SpecifierMatch where
  flags : List Char
  width : List Char
  precision : List Char
  lengthForm : List Char
  typeChar : Char
  rest : List Char

/-- Try to match one specifier starting right after a '%'. -/
def matchSpecifier (cs : List Char) : Option SpecifierMatch :=
  let (flags, cs1) := cs.span isFlagChar
  let (width, cs2) := matchWidth cs1
  let (precision, cs3) := matchPrecision cs2
  match matchLengthAndType cs3 with
  | some (lf, t, rest) => some ⟨flags, width, precision, lf, t, rest⟩
  | none => none

/-- The full matched text `%...` of a specifier, as the source interpolates it
into its error messages. -/
def SpecifierMatch.text (m : SpecifierMatch) : List Char :=
  '%' :: (m.flags ++ m.width ++ m.precision ++ m.lengthForm ++ [m.typeChar])

/-- The two failure modes of the replace callback (lines 163-171): the
unsupported-specifier Error for flags/width/precision, and the SyntaxError for
a (length, type) combination with no parser entry. -/
inductive ScanError where
  | unsupported (spec : List Char)
  | invalid (spec : List Char)
deriving DecidableEq

/-- A token of the scanned format string: a literal character or a conversion
that reads one argument of the given kind. -/
inductive FormatToken where
  | lit (c : Char)
  | conv (kind : ParseKind)
deriving DecidableEq

/-- Scan a format string into tokens, failing exactly where the replace
callback of formatFromVarargs (lines 159-175) throws; fuel decreases by at
least one consumed character per step. -/
def scanFormatAux : Nat → List Char → Except ScanError (List FormatToken)
  | 0, _ => .ok []
  | _, [] => .ok []
  | fuel + 1, c :: cs =>
    if c = '%' then
      match matchSpecifier cs with
      | none =>
        match scanFormatAux fuel cs with
        | .ok toks => .ok (.lit c :: toks)
        | .error e => .error e
      | some m =>
        if ¬ m.flags.isEmpty ∨ ¬ m.width.isEmpty ∨ ¬ m.precision.isEmpty then
          .error (.unsupported m.text)
        else
          match findSpecifier m.lengthForm m.typeChar with
          | none => .error (.invalid m.text)
          | some entry =>
            match scanFormatAux fuel m.rest with
            | .ok toks => .ok (.conv entry.kind :: toks)
            | .error e => .error e
    else
      match scanFormatAux fuel cs with
      | .ok toks => .ok (.lit c :: toks)
      | .error e => .error e

/-- Scan a whole format string (fuel bounded by its length). -/
def scanFormat (s : String) : Except ScanError (List FormatToken) :=
  scanFormatAux (s.length + 1) s.data

/-! ## Query parsing (main.ts lines 280-309)

parseQuery receives the already-once-decoded values of the repeated `t`
parameter (URLSearchParams performs one lenient percent-decoding pass), runs
the anchored regex `/^([012])_([^&]+)(?:&|$)/` on each value, and then calls
the host decodeURIComponent on the captured term a second time, which throws
URIError on a malformed percent sequence.
-/

/-- Hexadecimal digit value, as decodeURIComponent accepts it. -/
def hexDigitVal (c : Char) : Option Nat :=
  if '0' ≤ c ∧ c ≤ '9' then some (c.toNat - 48)
  else if 'A' ≤ c ∧ c ≤ 'F' then some (c.toNat - 55)
  else if 'a' ≤ c ∧ c ≤ 'f' then some (c.toNat - 87)
  else none

/-- Modelled from ECMA-262 Decode: read one `%XX` escape; none (URIError) when
the percent sign is not followed by two hexadecimal digits. -/
def readPctByte : List Char → Option (Nat × List Char)
  | '%' :: h1 :: h2 :: rest =>
    match hexDigitVal h1, hexDigitVal h2 with
    | some d1, some d2 => some (d1 * 16 + d2, rest)
    | _, _ => none
  | _ => none

/-- Modelled from ECMA-262 Decode: given a leading byte ≥ 0x80, read the
percent-encoded continuation bytes and decode one code point; none (URIError)
on an invalid, overlong, surrogate or out-of-range UTF-8 sequence. -/
def decodeMultiByte (b1 : Nat) (cs : List Char) : Option (Nat × List Char) :=
  if 0xC2 ≤ b1 ∧ b1 ≤ 0xDF then
    match readPctByte cs with
    | some (b2, r) =>
      if 0x80 ≤ b2 ∧ b2 ≤ 0xBF then some ((b1 - 0xC0) * 64 + (b2 - 0x80), r) else none
    | none => none
  else if 0xE0 ≤ b1 ∧ b1 ≤ 0xEF then
    match readPctByte cs with
    | some (b2, r1) =>
      match readPctByte r1 with
      | some (b3, r2) =>
        if (if b1 = 0xE0 then 0xA0 else 0x80) ≤ b2 ∧
            b2 ≤ (if b1 = 0xED then 0x9F else 0xBF) ∧ 0x80 ≤ b3 ∧ b3 ≤ 0xBF then
          some ((b1 - 0xE0) * 4096 + (b2 - 0x80) * 64 + (b3 - 0x80), r2)
        else none
      | none => none
    | none => none
  else if 0xF0 ≤ b1 ∧ b1 ≤ 0xF4 then
    match readPctByte cs with
    | some (b2, r1) =>
      match readPctByte r1 with
      | some (b3, r2) =>
        match readPctByte r2 with
        | some (b4, r3) =>
          if (if b1 = 0xF0 then 0x90 else 0x80) ≤ b2 ∧
              b2 ≤ (if b1 = 0xF4 then 0x8F else 0xBF) ∧
              0x80 ≤ b3 ∧ b3 ≤ 0xBF ∧ 0x80 ≤ b4 ∧ b4 ≤ 0xBF then
            some ((b1 - 0xF0) * 262144 + (b2 - 0x80) * 4096 + (b3 - 0x80) * 64 + (b4 - 0x80), r3)
          else none
        | none => none
      | none => none
    | none => none
  else none

/-- Modelled from ECMA-262 Decode (the host decodeURIComponent): none stands
for a thrown URIError.  Fuel decreases once per decoded unit; each step
consumes at least one input character, so fuel = length + 1 suffices. -/
def decodeURIComponentAux : Nat → List Char → Option (List Char)
  | 0, _ => none
  | _, [] => some []
  | fuel + 1, c :: cs =>
    if c = '%' then
      match readPctByte (c :: cs) with
      | none => none
      | some (b, rest) =>
        if b < 0x80 then
          match decodeURIComponentAux fuel rest with
          | some t => some (Char.ofNat b :: t)
          | none => none
        else
          match decodeMultiByte b rest with
          | none => none
          | some (cp, rest2) =>
            match decodeURIComponentAux fuel rest2 with
            | some t => some (Char.ofNat cp :: t)
            | none => none
    else
      match decodeURIComponentAux fuel cs with
      | some t => some (c :: t)
      | none => none

/-- The host decodeURIComponent called at main.ts line 304; none = URIError. -/
def decodeURIComponent (s : String) : Option String :=
  (decodeURIComponentAux (s.length + 1) s.data).map fun cs => String.mk cs

/-- The regex `/^([012])_([^&]+)(?:&|$)/` of line 299 applied to one `t`
value (RegExp.prototype.exec, anchored at the start): it matches exactly when
the value has at least three characters, starts with a mode digit 0-2 followed
by an underscore, and the character after the underscore is not an ampersand;
the greedy `[^&]+` then captures the maximal ampersand-free run (anything from
the first ampersand on is silently dropped), after which `(?:&|$)` always
holds.  Returns the numeric mode and the captured raw term. -/
def execTValue (s : String) : Option (Nat × String) :=
  match s.data with
  | c0 :: c1 :: c2 :: rest =>
    if (c0 = '0' ∨ c0 = '1' ∨ c0 = '2') ∧ c1 = '_' ∧ c2 ≠ '&' then
      some (c0.toNat - 48, String.mk ((c2 :: rest).takeWhile (fun c => c ≠ '&')))
    else none
  | _ => none

/-- ParsedQuery (lines 281-288): the three ordered term lists, in mode order
Require, Contain, Exclude. -/
structure ParsedQuery where
  require : List String
  contain : List String
  exclude : List String
deriving DecidableEq

/-- `modeTerms[mode].push(term)` (line 305). -/
def ParsedQuery.push (q : ParsedQuery) (mode : Nat) (term : String) : ParsedQuery :=
  if mode = 0 then ⟨q.require ++ [term], q.contain, q.exclude⟩
  else if mode = 1 then ⟨q.require, q.contain ++ [term], q.exclude⟩
  else ⟨q.require, q.contain, q.exclude ++ [term]⟩

/-- The loop of parseQuery (lines 297-306): per value, a regex failure makes
the whole parse return undefined (ok none); a URIError from the second
decoding propagates (error). -/
def parseQueryGo : List String → ParsedQuery → Except String (Option ParsedQuery)
  | [], acc => .ok (some acc)
  | v :: rest, acc =>
    match execTValue v with
    | none => .ok none
    | some (mode, rawTerm) =>
      match decodeURIComponent rawTerm with
      | none => .error "URIError"
      | some term => parseQueryGo rest (acc.push mode term)

/-- parseQuery (lines 291-309). -/
def parseQuery (termsRaw : List String) : Except String (Option ParsedQuery) :=
  parseQueryGo termsRaw ⟨[], [], []⟩

/-! ## Search orchestration (main.ts lines 191-446)

The WebAssembly computation module and the KV blob store are outside this
repository; handleSearch is therefore embedded relative to an environment of
oracles: term resolution (findInChunks with the `terms_` prefix, lines
237-278 and 333-342), document resolution (findInChunks with the `doc_`
prefix, line 423), the cached `default` snapshot text (line 233), and the
query evaluator (index_query via executePostingsListQuery, lines 365-370,
returning the fields that readResult decodes, or none for a null output
pointer).  The build-time configuration constants MAX_QUERY_TERMS and
MAX_QUERY_BYTES (lines 13-16) are environment fields as well.  A serialized
postings bitmap is opaque bytes.  The continuation argument is the value the
code computes at line 385, a clamped non-negative integer.
-/

/-- The fields readResult (lines 317-331) decodes from a results_t struct:
the raw i32 continuation, the u32 total, and the page's document ids. -/
structure RawResults where
  continuation : Int
  total : Nat
  documents : List Nat
deriving DecidableEq

/-- QueryResult (lines 311-315) as produced by readResult: line 330 maps a
raw continuation of -1 to null. -/
structure QueryResult where
  continuation : Option Int
  total : Nat
  documents : List Nat
deriving DecidableEq

/-- readResult (lines 317-331) on the decoded evaluator output. -/
def readResult (raw : RawResults) : QueryResult :=
  ⟨if raw.continuation = -1 then none else some raw.continuation,
   raw.total, raw.documents⟩

/-- The external collaborators and build-time configuration handleSearch runs
against. -/
structure Env where
  maxQueryTerms : Nat
  maxQueryBytes : Nat
  resolveTerm : String → Option Bytes
  defaultJson : String
  runQuery : Nat → List Bytes → List Bytes → List Bytes → Option RawResults
  resolveDoc : Nat → Option String

/-- The allocation size of buildIndexQuery (line 348): an index_query_t is
4 bytes of first rank plus, for each bitmap, a (length, pointer) pair of u32s,
plus three u32 zero sentinels, one per mode list. -/
def serialisedQuerySize (bitmapCount : Nat) : Nat :=
  4 + (bitmapCount * 2 + 3) * 4

/-- How a request ends: a JSON error envelope with a status code
(responseError, lines 219-224), a 200 JSON body (responseRawJson and the
streamed response, lines 226-231 and 427-445), or an exception propagating
out of handleSearch uncaught. -/
inductive SearchOutcome where
  | err (message : String) (status : Nat)
  | ok (body : String)
  | thrown (message : String)
deriving DecidableEq

/-- Exact body of responseNoResults (line 235). -/
def responseNoResultsBody : String :=
  "\x7b\"results\":[],\"continuation\":null,\"total\":0\x7d"

/-- Exact body of responseDefaultResults (line 233), around the KV `default`
snapshot text. -/
def responseDefaultResultsBody (defaultJson : String) : String :=
  "\x7b\"results\":" ++ defaultJson ++ ",\"continuation\":null,\"total\":0\x7d"

/-- Exact bytes of the streamed success response (lines 419-436): the prefix
interpolates `result.total` and the request's `continuation` variable, the
fetched documents are joined with commas, then the `]}` suffix. -/
def pageBody (total : Nat) (continuation : Nat) (documents : List String) : String :=
  "\x7b\"total\":" ++ Nat.repr total ++ ",\"continuation\":" ++ Nat.repr continuation ++
    ",\"results\":[" ++ String.intercalate "," documents ++ "]\x7d"

/-- One run of handleSearch: its outcome plus the I/O trace the claims are
about — how many term resolutions (each a chunk locate and, on a hit, a KV
chunk fetch) were started, whether the evaluator was invoked, and how many
document resolutions were started. -/
structure SearchRun where
  outcome : SearchOutcome
  termResolutions : Nat
  evaluatorInvoked : Bool
  docResolutions : Nat
deriving DecidableEq

/-- handleSearch (lines 376-446).  Control flow in source order: parse the
`t` values (a regex failure means a Malformed query response, a URIError
propagates); reject with 413 when the term count exceeds MAX_QUERY_TERMS;
resolve every term of every mode; if any Require term is unresolved answer
responseNoResults; drop unresolved Contain and Exclude terms; if the three
lists are now all empty answer responseDefaultResults; otherwise build and
run the evaluator query (throwing when it returns a null pointer) and stream
the page.  Note that no comparison against maxQueryBytes occurs anywhere:
the source declares MAX_QUERY_BYTES (line 14) but never reads it. -/
def handleSearch (env : Env) (tParams : List String) (continuation : Nat) : SearchRun :=
  match parseQuery tParams with
  | .error e => ⟨.thrown e, 0, false, 0⟩
  | .ok none => ⟨.err "Malformed query" 400, 0, false, 0⟩
  | .ok (some query) =>
    let termCount := query.require.length + query.contain.length + query.exclude.length
    if termCount > env.maxQueryTerms then
      ⟨.err "Too many terms" 413, 0, false, 0⟩
    else
      let requireBms := query.require.map env.resolveTerm
      let containBms := query.contain.map env.resolveTerm
      let excludeBms := query.exclude.map env.resolveTerm
      if requireBms.any Option.isNone then
        ⟨.ok responseNoResultsBody, termCount, false, 0⟩
      else
        let req := requireBms.filterMap id
        let con := containBms.filterMap id
        let exc := excludeBms.filterMap id
        if requireBms.isEmpty && con.isEmpty && exc.isEmpty then
          ⟨.ok (responseDefaultResultsBody env.defaultJson), termCount, false, 0⟩
        else
          match env.runQuery continuation req con exc with
          | none => ⟨.thrown "Failed to execute query", termCount, true, 0⟩
          | some raw =>
            let result := readResult raw
            let documents := (result.documents.map env.resolveDoc).filterMap id
            ⟨.ok (pageBody result.total continuation documents),
             termCount, true, result.documents.length⟩

/-- Modelled from the spec: the shape `<digit 0-2>_<non-empty-term>` of §6,
against which the code's regex acceptance is compared for claim C7 — a mode
digit, an underscore, and a non-empty term. -/
def specShape (s : String) : Bool :=
  match s.data with
  | c0 :: c1 :: rest => (c0 = '0' ∨ c0 = '1' ∨ c0 = '2') ∧ c1 = '_' ∧ ¬ rest.isEmpty
  | _ => false

/-! ## Helper lemmas -/

/-- A bounds-guarded operation succeeds exactly when its guard holds. -/
theorem exists_ok_ite {α : Type} (c : Prop) [Decidable c] (v : α) (e : String) :
    (∃ r, (if c then Except.ok v else Except.error e) = .ok r) ↔ c := by
  split
  · exact iff_of_true ⟨v, rfl⟩ (by assumption)
  · constructor
    · rintro ⟨r, hr⟩
      cases hr
    · intro hc
      exact absurd hc (by assumption)

/-- Mapping a resolver that misses on every element and keeping the hits
yields the empty list (the filter of line 401/402 on all-unresolved terms). -/
theorem filterMap_resolve_nil {α β : Type} (f : α → Option β) (l : List α)
    (h : ∀ t ∈ l, f t = none) : (l.map f).filterMap id = [] := by
  induction l with
  | nil => rfl
  | cons a l ih =>
    simp only [List.map_cons, List.filterMap_cons, id]
    rw [h a (by simp)]
    exact ih (fun t ht => h t (by simp [ht]))

/-- When every regex-matched value decodes without URIError, the parse loop
returns undefined (ok none) exactly when some value fails the regex. -/
theorem parseQueryGo_ok_none_iff (ts : List String) (acc : ParsedQuery)
    (hdec : ∀ v ∈ ts, ∀ m t, execTValue v = some (m, t) → (decodeURIComponent t).isSome) :
    (parseQueryGo ts acc = .ok none ↔ ∃ v ∈ ts, execTValue v = none) := by
  induction ts generalizing acc with
  | nil => simp [parseQueryGo]
  | cons v rest ih =>
    cases hv : execTValue v with
    | none =>
      exact iff_of_true (by simp [parseQueryGo, hv]) ⟨v, by simp, hv⟩
    | some mt =>
      obtain ⟨m, t⟩ := mt
      have hsome : (decodeURIComponent t).isSome :=
        hdec v (by simp) m t hv
      obtain ⟨term, hterm⟩ := Option.isSome_iff_exists.mp hsome
      simp only [parseQueryGo, hv, hterm]
      rw [ih _ (fun u hu => hdec u (by simp [hu]))]
      constructor
      · rintro ⟨u, hu, hpu⟩
        exact ⟨u, by simp [hu], hpu⟩
      · rintro ⟨u, hu, hpu⟩
        rcases List.mem_cons.mp hu with h | h
        · subst h
          rw [hv] at hpu
          cases hpu
        · exact ⟨u, h, hpu⟩

/-- When every regex-matched value decodes without URIError, the parse loop
never throws. -/
theorem parseQueryGo_ne_error (ts : List String) (acc : ParsedQuery) (e : String)
    (hdec : ∀ v ∈ ts, ∀ m t, execTValue v = some (m, t) → (decodeURIComponent t).isSome) :
    parseQueryGo ts acc ≠ .error e := by
  induction ts generalizing acc with
  | nil => simp [parseQueryGo]
  | cons v rest ih =>
    cases hv : execTValue v with
    | none => simp [parseQueryGo, hv]
    | some mt =>
      obtain ⟨m, t⟩ := mt
      have hsome : (decodeURIComponent t).isSome :=
        hdec v (by simp) m t hv
      obtain ⟨term, hterm⟩ := Option.isSome_iff_exists.mp hsome
      simp only [parseQueryGo, hv, hterm]
      exact ih _ (fun u hu => hdec u (by simp [hu]))

/-! ## Claim C1 -/

/-- Environment realizing the spec's Scenario 1: "engineer" and "intern"
resolve to bitmaps, and the evaluator answers with raw continuation -1 (the
wire encoding of a null next cursor — the whole result fits in one page),
total 2 and page ids [1, 3]. -/
def envC1 : Env :=
  ⟨50, 1024,
   fun t => if t = "engineer" then some [1] else if t = "intern" then some [2] else none,
   "[]",
   fun _ _ _ _ => some ⟨-1, 2, [1, 3]⟩,
   fun d =>
     if d = 1 then some "\x7b\"ID\":1\x7d"
     else if d = 3 then some "\x7b\"ID\":3\x7d"
     else none⟩

/-- Claim C1, code bug: the claim says the continuation field of the JSON
response equals the next cursor computed by the evaluator, null at the end of
the results (Scenario 1).  readResult (line 330) does decode that next cursor
— here null, since the raw value is -1 — but the response prefix built at
line 419 interpolates the request's own `continuation` variable (line 385)
instead of `result.continuation`, so the final page of Scenario 1 is sent
with continuation 0, never null. -/
theorem c1_continuation_uses_request_cursor :
    (readResult ⟨-1, 2, [1, 3]⟩).continuation = none ∧
    (handleSearch envC1 ["0_engineer", "2_intern"] 0).evaluatorInvoked = true ∧
    (handleSearch envC1 ["0_engineer", "2_intern"] 0).outcome =
      .ok "\x7b\"total\":2,\"continuation\":0,\"results\":[\x7b\"ID\":1\x7d,\x7b\"ID\":3\x7d]\x7d" := by
  decide

/-! ## Claim C3 -/

/-- Claim C3 counterexample: the claim says every MemoryWalker operation
whose resulting position would exceed the buffer length fails with an error,
readSlice and readNullTerminatedString included.  Reading a 5-byte slice of
a 2-byte buffer succeeds, silently truncating to 2 bytes while moving the
position to 5 > 2; reading a null-terminated string from an unterminated
2-byte buffer succeeds and leaves the position at 3 > 2. -/
theorem c3_bounds_counterexample :
    MemoryWalker.readSlice ⟨[7, 7], 0⟩ 5 = .ok ([7, 7], ⟨[7, 7], 5⟩) ∧
    (⟨[7, 7], 0⟩ : MemoryWalker).buffer.length < 5 ∧
    MemoryWalker.readNullTerminatedString ⟨[65, 66], 0⟩ = .ok ([65, 66], ⟨[65, 66], 3⟩) ∧
    (⟨[65, 66], 0⟩ : MemoryWalker).buffer.length < 3 := by
  decide

/-- Claim C3 amended: the DataView-backed fixed-width reads and writes and
the bulk writeAll are bounds-checked — each succeeds exactly when its
resulting position stays within the buffer length — but readSlice never
fails (it silently clamps the returned bytes to the buffer end while still
advancing the position by the requested length) and readNullTerminatedString
never fails (it silently treats the end of the buffer as a terminator). -/
theorem c3_bounds_amended (w : MemoryWalker) (len : Nat) (src : Bytes) (val : Nat) :
    ((∃ r, w.readUInt8 = .ok r) ↔ w.next + 1 ≤ w.buffer.length) ∧
    ((∃ r, w.readBoolean = .ok r) ↔ w.next + 1 ≤ w.buffer.length) ∧
    ((∃ r, w.readInt32LE = .ok r) ↔ w.next + 4 ≤ w.buffer.length) ∧
    ((∃ r, w.readInt32BE = .ok r) ↔ w.next + 4 ≤ w.buffer.length) ∧
    ((∃ r, w.readUInt32LE = .ok r) ↔ w.next + 4 ≤ w.buffer.length) ∧
    ((∃ r, w.readUInt32BE = .ok r) ↔ w.next + 4 ≤ w.buffer.length) ∧
    ((∃ r, w.readInt64LE = .ok r) ↔ w.next + 8 ≤ w.buffer.length) ∧
    ((∃ r, w.readUInt64LE = .ok r) ↔ w.next + 8 ≤ w.buffer.length) ∧
    ((∃ r, w.readDoubleLE = .ok r) ↔ w.next + 8 ≤ w.buffer.length) ∧
    ((∃ r, w.writeUInt32LE val = .ok r) ↔ w.next + 4 ≤ w.buffer.length) ∧
    ((∃ r, w.writeAll src = .ok r) ↔ w.next + src.length ≤ w.buffer.length) ∧
    w.readSlice len = .ok ((w.buffer.drop w.next).take len, ⟨w.buffer, w.next + len⟩) ∧
    (∃ bytes, w.readNullTerminatedString = .ok (bytes, ⟨w.buffer, w.next + bytes.length + 1⟩)) := by
  refine ⟨?_, ?_, ?_, ?_, ?_, ?_, ?_, ?_, ?_, ?_, ?_, rfl, ⟨_, rfl⟩⟩
  · exact exists_ok_ite _ _ _
  · exact exists_ok_ite _ _ _
  · exact exists_ok_ite _ _ _
  · exact exists_ok_ite _ _ _
  · exact exists_ok_ite _ _ _
  · exact exists_ok_ite _ _ _
  · exact exists_ok_ite _ _ _
  · exact exists_ok_ite _ _ _
  · exact exists_ok_ite _ _ _
  · exact exists_ok_ite _ _ _
  · exact exists_ok_ite _ _ _

/-! ## Claim C4 -/

/-- Environment with the byte budget MAX_QUERY_BYTES set to 0, under which
every query exceeds the budget; the term "a" resolves and the evaluator
returns a one-document page. -/
def envC4 : Env :=
  ⟨50, 0, fun t => if t = "a" then some [0] else none, "[]",
   fun _ _ _ _ => some ⟨-1, 1, [5]⟩, fun _ => some "\x7b\x7d"⟩

/-- Claim C4, code bug: the claim says a request whose serialized query size
exceeds MAX_QUERY_BYTES is rejected as a user error before any chunk fetch.
The source declares MAX_QUERY_BYTES (line 14) but never reads it: handleSearch
contains no byte-budget comparison at all, so with the budget set to 0 —
strictly below the 24-byte serialized size of even this one-bitmap query — a
term resolution (KV chunk fetch) is still issued, a document is fetched, and
the request completes with a 200 page. -/
theorem c4_byte_budget_unenforced :
    envC4.maxQueryBytes < serialisedQuerySize 1 ∧
    serialisedQuerySize 1 = 24 ∧
    (handleSearch envC4 ["0_a"] 0).termResolutions = 1 ∧
    (handleSearch envC4 ["0_a"] 0).docResolutions = 1 ∧
    (handleSearch envC4 ["0_a"] 0).outcome =
      .ok "\x7b\"total\":1,\"continuation\":0,\"results\":[\x7b\x7d]\x7d" := by
  decide

/-! ## Claim C5 -/

/-- Claim C5: for every query that parses and passes the term-count check, if
any Require term resolves to none then the evaluator is not invoked and the
response body is exactly the responseNoResults text, regardless of all other
terms of any mode (lines 394-399 and 235). -/
theorem c5_require_miss_short_circuits (env : Env) (tParams : List String)
    (continuation : Nat) (query : ParsedQuery)
    (hparse : parseQuery tParams = .ok (some query))
    (hcount : query.require.length + query.contain.length + query.exclude.length ≤
      env.maxQueryTerms)
    (hmiss : ∃ t ∈ query.require, env.resolveTerm t = none) :
    (handleSearch env tParams continuation).outcome = .ok responseNoResultsBody ∧
    (handleSearch env tParams continuation).evaluatorInvoked = false ∧
    (handleSearch env tParams continuation).docResolutions = 0 := by
  have hle : ¬ (query.require.length + query.contain.length + query.exclude.length >
      env.maxQueryTerms) := by omega
  have hany : (query.require.map env.resolveTerm).any Option.isNone = true := by
    obtain ⟨t, ht, hnone⟩ := hmiss
    rw [List.any_eq_true]
    exact ⟨env.resolveTerm t, List.mem_map_of_mem env.resolveTerm ht, by simp [hnone]⟩
  simp [handleSearch, hparse, hle, hany]

/-- Environment for the C5 witness: no term resolves. -/
def envC5w : Env := ⟨50, 1024, fun _ => none, "[]", fun _ _ _ _ => none, fun _ => none⟩

/-- Witness for claim C5 at the query `t=0_ghost&t=1_x` under envC5w. -/
theorem c5_require_miss_witness :
    (handleSearch envC5w ["0_ghost", "1_x"] 0).outcome = .ok responseNoResultsBody ∧
    (handleSearch envC5w ["0_ghost", "1_x"] 0).evaluatorInvoked = false := by
  have h := c5_require_miss_short_circuits envC5w ["0_ghost", "1_x"] 0
    ⟨["ghost"], ["x"], []⟩ (by decide) (by decide) ⟨"ghost", by decide, by decide⟩
  exact ⟨h.1, h.2.1⟩

/-! ## Claim C6 -/

/-- Claim C6: for every query that parses and passes the term-count check, if
the Require list is empty and every Contain and Exclude term resolves to none
(so all three lists are empty after the drop of lines 401-402 — which covers
a request with no t parameters at all), the evaluator is not invoked and the
response body is the cached default snapshot wrapper (lines 403-405, 233). -/
theorem c6_empty_query_default_results (env : Env) (tParams : List String)
    (continuation : Nat) (query : ParsedQuery)
    (hparse : parseQuery tParams = .ok (some query))
    (hcount : query.require.length + query.contain.length + query.exclude.length ≤
      env.maxQueryTerms)
    (hreq : query.require = [])
    (hcon : ∀ t ∈ query.contain, env.resolveTerm t = none)
    (hexc : ∀ t ∈ query.exclude, env.resolveTerm t = none) :
    (handleSearch env tParams continuation).outcome =
      .ok (responseDefaultResultsBody env.defaultJson) ∧
    (handleSearch env tParams continuation).evaluatorInvoked = false ∧
    (handleSearch env tParams continuation).docResolutions = 0 := by
  have hle : ¬ (env.maxQueryTerms < query.contain.length + query.exclude.length) := by
    rw [hreq] at hcount
    simp only [List.length_nil] at hcount
    omega
  have hconNil : (query.contain.map env.resolveTerm).filterMap id = [] :=
    filterMap_resolve_nil env.resolveTerm query.contain hcon
  have hexcNil : (query.exclude.map env.resolveTerm).filterMap id = [] :=
    filterMap_resolve_nil env.resolveTerm query.exclude hexc
  simp [handleSearch, hparse, hle, hreq, hconNil, hexcNil]

/-- Environment for the C6 witness, with a recognizable default snapshot. -/
def envC6w : Env := ⟨50, 1024, fun _ => none, "[1,2]", fun _ _ _ _ => none, fun _ => none⟩

/-- Witness for claim C6 at a request with no t parameters under envC6w. -/
theorem c6_empty_query_default_witness :
    (handleSearch envC6w [] 0).outcome = .ok (responseDefaultResultsBody "[1,2]") ∧
    (handleSearch envC6w [] 0).evaluatorInvoked = false := by
  have h := c6_empty_query_default_results envC6w [] 0 ⟨[], [], []⟩
    (by decide) (by decide) rfl (by simp) (by simp)
  exact ⟨h.1, h.2.1⟩

/-! ## Claim C8 -/

/-- Claim C8: for every query that parses but whose total term count across
the three modes exceeds MAX_QUERY_TERMS, the response is the 413 error and no
term resolution, evaluator call or document resolution happens — the check of
lines 387-390 runs before findSerialisedTermBitmaps, so no chunk is fetched. -/
theorem c8_term_limit_413 (env : Env) (tParams : List String) (continuation : Nat)
    (query : ParsedQuery)
    (hparse : parseQuery tParams = .ok (some query))
    (hcount : query.require.length + query.contain.length + query.exclude.length >
      env.maxQueryTerms) :
    handleSearch env tParams continuation = ⟨.err "Too many terms" 413, 0, false, 0⟩ := by
  simp [handleSearch, hparse, hcount]

/-- Environment for the C8 witness: term limit 0. -/
def envC8w : Env := ⟨0, 1024, fun _ => some [1], "[]", fun _ _ _ _ => none, fun _ => none⟩

/-- Witness for claim C8 at the one-term query `t=0_a` with MAX_QUERY_TERMS 0. -/
theorem c8_term_limit_witness :
    handleSearch envC8w ["0_a"] 0 = ⟨.err "Too many terms" 413, 0, false, 0⟩ :=
  c8_term_limit_413 envC8w ["0_a"] 0 ⟨["a"], [], []⟩ (by decide) (by decide)

/-! ## Claim C7 -/

/-- Environment for the C7 counterexample. -/
def envC7c : Env := ⟨50, 1024, fun _ => some [1], "[]", fun _ _ _ _ => none, fun _ => none⟩

/-- Claim C7 counterexample: the claim says a request is rejected as
malformed only when some t value fails the shape `<digit 0-2>_<non-empty-term>`.
The value `0_&a` (the once-decoded form of `t=0_%26a`) has mode digit 0, an
underscore and the non-empty term `&a`, so it matches that shape — but the
regex term class `[^&]+` cannot start at an ampersand, so the code rejects
the request as malformed anyway. -/
theorem c7_shape_counterexample :
    specShape "0_&a" = true ∧
    execTValue "0_&a" = none ∧
    (handleSearch envC7c ["0_&a"] 0).outcome = .err "Malformed query" 400 := by
  decide

/-- Claim C7 amended: assuming every regex-accepted t value decodes without a
URIError (the throwing case is claim C10), the request is rejected with the
400 Malformed query error iff some t value fails the code's shape test — at
least three characters, a mode digit 0-2, an underscore, and a character
other than `&` right after the underscore; and every value the code accepts
does match the spec's shape `<digit 0-2>_<non-empty-term>`, so the code's
test is strictly stricter than the spec's shape. -/
theorem c7_shape_amended (env : Env) (tParams : List String) (continuation : Nat)
    (hdec : ∀ v ∈ tParams, ∀ m t, execTValue v = some (m, t) → (decodeURIComponent t).isSome) :
    ((handleSearch env tParams continuation).outcome = .err "Malformed query" 400 ↔
      ∃ v ∈ tParams, execTValue v = none) ∧
    (∀ v : String, ∀ m : Nat, ∀ t : String, execTValue v = some (m, t) → specShape v = true) := by
  constructor
  · cases hp : parseQuery tParams with
    | error e =>
      exact absurd hp (parseQueryGo_ne_error tParams ⟨[], [], []⟩ e hdec)
    | ok oq =>
      cases oq with
      | none =>
        exact iff_of_true (by simp [handleSearch, hp])
          ((parseQueryGo_ok_none_iff tParams ⟨[], [], []⟩ hdec).mp hp)
      | some query =>
        have hp2 : parseQueryGo tParams ⟨[], [], []⟩ = .ok (some query) := hp
        have hne : ¬ ∃ v ∈ tParams, execTValue v = none := by
          intro hex
          have hn := (parseQueryGo_ok_none_iff tParams ⟨[], [], []⟩ hdec).mpr hex
          rw [hp2] at hn
          simp at hn
        have hout : (handleSearch env tParams continuation).outcome ≠
            .err "Malformed query" 400 := by
          simp only [handleSearch, hp]
          split
          · simp
          · split
            · simp
            · split
              · simp
              · split
                · simp
                · simp
        exact iff_of_false hout hne
  · intro v m t h
    unfold execTValue at h
    split at h
    · rename_i c0 c1 c2 rest hd
      split at h
      · rename_i hcond
        unfold specShape
        rw [hd]
        simp [hcond.1, hcond.2.1]
      · cases h
    · cases h

/-- Environment for the C7 witness. -/
def envC7w : Env := ⟨50, 1024, fun _ => none, "[]", fun _ _ _ _ => none, fun _ => none⟩

/-- Witness for claim C7 at the request `t=3_b`, whose value fails the shape
test and is answered with the 400 Malformed query error. -/
theorem c7_shape_amended_witness :
    (handleSearch envC7w ["3_b"] 0).outcome = .err "Malformed query" 400 :=
  ((c7_shape_amended envC7w ["3_b"] 0 (by
    intro v hv m t hmt
    rw [List.mem_singleton] at hv
    subst hv
    rw [show execTValue "3_b" = none by decide] at hmt
    cases hmt)).1).mpr ⟨"3_b", by decide, by decide⟩

/-! ## Claim C9 -/

/-- Claim C9, code bug: a specifier carrying any flag, width or precision is
rejected (first two conjuncts), and a (length, type) combination with no
table entry is a hard decode failure — but the claim's enumerated supported
set includes string-via-reference and literal percent, while the code's `s`
and `%` entries carry an empty length Set (`new Set()`, lines 134-135) that
does not contain the empty length prefix, so `%s` and `%%` themselves are
rejected as invalid specifiers; the remaining enumerated conversions do
decode (last conjunct). -/
theorem c9_format_specifier_failures :
    scanFormat "%5d" = .error (.unsupported "%5d".data) ∧
    scanFormat "%-d" = .error (.unsupported "%-d".data) ∧
    scanFormat "%.2f" = .error (.unsupported "%.2f".data) ∧
    scanFormat "count: %s" = .error (.invalid "%s".data) ∧
    scanFormat "%%" = .error (.invalid "%%".data) ∧
    scanFormat "%qd" = .error (.invalid "%qd".data) ∧
    findSpecifier [] 's' = none ∧
    findSpecifier [] '%' = none ∧
    scanFormat "%d %u %lld %llu %f %c %p" = .ok
      [.conv .int32, .lit ' ', .conv .uint32, .lit ' ', .conv .int64, .lit ' ',
       .conv .uint64, .lit ' ', .conv .double, .lit ' ', .conv .int32, .lit ' ',
       .conv .uint32] := by
  decide

/-! ## Claim C10 -/

/-- Environment for claim C10 (its oracles are never consulted). -/
def envC10 : Env := ⟨50, 1024, fun _ => none, "[]", fun _ _ _ _ => none, fun _ => none⟩

/-- Claim C10: the t value `0_100%` (as URLSearchParams delivers it for
`t=0_100%`, leaving the lone percent sign intact) matches the regex with term
`100%`, but the second decoding of that term throws URIError, so parseQuery
throws and the request ends in an uncaught exception — neither a 400
malformed-query response nor a success. -/
theorem c10_percent_term_throws :
    execTValue "0_100%" = some (0, "100%") ∧
    specShape "0_100%" = true ∧
    decodeURIComponent "100%" = none ∧
    parseQuery ["0_100%"] = .error "URIError" ∧
    (handleSearch envC10 ["0_100%"] 0).outcome = .thrown "URIError" := by
  decide
